import Mathlib

/-!
Shallow embedding of the Claimify multi-stage claim-extraction pipeline
(src/claimify.ts, src/unnamed/part_000 (the deterministic module),
src/singleturn/claimify.ts, and the schema declarations in
src/prompts/claimify.ts).

Conventions of the embedding:
* TypeScript arrays become Lean lists; the per-sentence and per-document
  "for" loops with "push" become structural recursion or "List.map".
* The external generation capability ("generateObject", which either
  returns a schema-validated object or throws) is a parameter
  "gen : ... -> Except String Output"; its arguments are exactly the data
  the source feeds into the prompt builders (query, excerpt, sentence, ...).
  The wording of the prompt text itself is out of scope.
* The untyped empty object used by the source to mark a pruned sentence
  becomes the explicit constructor "Slot.pruned"; the runtime test
  "Object.keys(item).length === 0" becomes a match on that constructor.
* File reading / writing and console logging are out of scope; a stage
  body is modelled as a function from its parsed input artifact to its
  output artifact.  The early "return" taken when the parsed input is not
  an array is modelled by "StageResult.earlyReturn".
* TypeScript "a.slice(start, stop)" is "(a.take stop).drop start";
  "Math.max(0, i - p)" on numbers that index an array is
  "((i : Int) - p).toNat".
-/

/-- Positional container for one sentence index: the source represents a
pruned sentence as an untyped empty object, a live one as a record. -/
inductive Slot (α : Type) where
  | pruned : Slot α
  | populated : α → Slot α

/-- Error text stored by every failure branch of the source:
the template literal prefixing the thrown error with "ERROR: ". -/
def errText (e : String) : String := "ERROR: " ++ e

/-- Result of one call to the abstract generation capability. -/
abbrev GenResult (α : Type) := Except String α

/-! ### ContextWindowBuilder (src/unnamed/part_000, createExcerpt) -/

/-- createExcerpt from the deterministic module (src/unnamed/part_000,
lines 11-29): slice-based window of p preceding and f following sentences
around the target, joined by a single space.  The in-range source access
"allSentences[targetIndex]" is modelled with getD and a default that the
claims never reach (their hypotheses keep targetIndex in range). -/
def createExcerpt (allSentences : List String) (targetIndex p f : Nat) : String :=
  let numSentences := allSentences.length
  let actualP := min p targetIndex
  let precedingSentences := (allSentences.take targetIndex).drop (targetIndex - actualP)
  let actualF := min f (numSentences - 1 - targetIndex)
  let followingSentences :=
    (allSentences.take (targetIndex + 1 + actualF)).drop (targetIndex + 1)
  let contextParts :=
    precedingSentences ++ (allSentences.getD targetIndex "" :: followingSentences)
  String.intercalate " " contextParts

/-- createExcerpt from the single-turn module (src/singleturn/claimify.ts,
lines 76-85): start = Math.max(0, i - preceding),
stop = Math.min(length, i + following + 1), one slice, joined by a space. -/
def createExcerpt_singleturn (tokenizedSentences : List String)
    (sentenceIndex preceding following : Nat) : String :=
  let start := ((sentenceIndex : Int) - (preceding : Int)).toNat
  let stop := min tokenizedSentences.length (sentenceIndex + following + 1)
  String.intercalate " " ((tokenizedSentences.take stop).drop start)

/-- Modelled from the spec formula (section 4.1): the window
sentences[max(0, targetIndex - p) .. min(len, targetIndex + f + 1)),
stated with the same max / min arithmetic as the spec text. -/
def specWindow (sentences : List String) (targetIndex p f : Nat) : List String :=
  (sentences.take (min sentences.length (targetIndex + f + 1))).drop
    (((targetIndex : Int) - (p : Int)).toNat)

/-! ### Records of the Selection stage (src/prompts/claimify.ts, src/claimify.ts) -/

/-- Shape returned by the generation call of the Selection stage
(SelectionOutputSchema, src/prompts/claimify.ts lines 1116-1126). -/
structure SelectionOutputRec where
  sentence : String
  finalSubmission : String
  sentenceWithOnlyVerifiableInformation : String

/-- The sentinel the SelectionOutputSchema description instructs the
generator to produce when the sentence needs no change
("Remains Unchanged", capitalised, src/prompts/claimify.ts line 1125). -/
def schemaUnchangedSentinel : String := "Remains Unchanged"

/-- The error record claimifySelection builds on a failed generation call
(src/claimify.ts lines 114-120).  The source constructs it but the push
into the output array is commented out (line 121), so it is never stored. -/
structure SelectionErrorOutput where
  filename : String
  originalSentenceIndex : Nat
  sentence : String
  finalSubmission : String
  sentenceWithOnlyVerifiableInformation : String

/-- Builder of the (dead) Selection error record, field for field as in
src/claimify.ts lines 114-120. -/
def selectionErrorOutput (filename : String) (i : Nat) (sentence e : String) :
    SelectionErrorOutput :=
  { filename := filename
    originalSentenceIndex := i
    sentence := sentence
    finalSubmission := "Does NOT contain a specific and verifiable proposition"
    sentenceWithOnlyVerifiableInformation := errText e }

/-- One parsed document of the Selection input artifact
(DataItemWithExcerpts): the two parallel arrays are Options so that a
document missing them (the source tests for undefined / non-array) is
representable. -/
structure DataItemWithExcerpts where
  filename : String
  query : String
  tokenized_response : Option (List String)
  excerpts : Option (List String)

/-- Per-sentence loop of claimifySelection (src/claimify.ts lines 94-123)
over the pairs (tokenized_response[i], excerpts[i]).  On success the raw
validated output is pushed; on failure NOTHING is pushed, because the
source has the error push commented out (line 121). -/
def selectionDoc (gen : String → String → String → GenResult SelectionOutputRec)
    (query : String) : List (String × String) → List SelectionOutputRec
  | [] => []
  | (sentence, excerpt) :: rest =>
    match gen query excerpt sentence with
    | Except.ok o => o :: selectionDoc gen query rest
    | Except.error _ => selectionDoc gen query rest

/-- Document loop of claimifySelection (src/claimify.ts lines 74-126):
a document whose tokenized_response or excerpts array is missing, or whose
two arrays have different lengths, is skipped with a warning ("continue"),
contributing no entry at all to the grouped output. -/
def claimifySelectionDocs (gen : String → String → String → GenResult SelectionOutputRec) :
    List DataItemWithExcerpts → List (List SelectionOutputRec)
  | [] => []
  | item :: rest =>
    match item.tokenized_response, item.excerpts with
    | some tok, some exc =>
      if tok.length = exc.length then
        selectionDoc gen item.query (tok.zip exc) :: claimifySelectionDocs gen rest
      else
        claimifySelectionDocs gen rest
    | _, _ => claimifySelectionDocs gen rest

/-- Parsed top-level input of a stage: either the JSON was not an array
(the source logs and returns early) or it is a list of documents. -/
inductive RawInput (α : Type) where
  | notArray : RawInput α
  | array : List α → RawInput α

/-- Outcome of a stage body: an early return with no output written, or a
completed run that wrote its grouped output artifact. -/
inductive StageResult (α : Type) where
  | earlyReturn : StageResult α
  | wroteOutput : α → StageResult α

/-- Body of claimifySelection (src/claimify.ts lines 61-132): a non-array
input returns early (no throw, no output file); an array input always
completes and writes the grouped output. -/
def claimifySelection (gen : String → String → String → GenResult SelectionOutputRec) :
    RawInput DataItemWithExcerpts → StageResult (List (List SelectionOutputRec))
  | RawInput.notArray => StageResult.earlyReturn
  | RawInput.array docs => StageResult.wroteOutput (claimifySelectionDocs gen docs)

/-! ### Deterministic prune filter (src/unnamed/part_000, filterVerifiableInformation) -/

/-- Input record shape of the Disambiguation stage (SentenceData,
src/prompts/claimify.ts lines 1154-1160). -/
structure SentenceData where
  sentence : String
  finalSubmission : String
  sentenceWithOnlyVerifiableInformation : String
  query : String
  excerpt : String

/-- Element-wise rule of filterVerifiableInformation (src/unnamed/part_000
lines 79-86): an item whose rewrite field equals "None" becomes the empty
object; anything else is returned unchanged (an already empty object has
no such field, hence never compares equal to "None"). -/
def filterVerifiableItem (item : Slot SentenceData) : Slot SentenceData :=
  match item with
  | Slot.pruned => Slot.pruned
  | Slot.populated sd =>
    if sd.sentenceWithOnlyVerifiableInformation = "None" then Slot.pruned
    else Slot.populated sd

/-- filterVerifiableInformation (src/unnamed/part_000 lines 72-95): a
nested map replacing filtered items with empty objects, preserving the
array-of-arrays structure. -/
def filterVerifiableInformation (data : List (List (Slot SentenceData))) :
    List (List (Slot SentenceData)) :=
  data.map (fun innerArray => innerArray.map filterVerifiableItem)

/-- Lookup of the slot at document index di, sentence index si of a
grouped artifact. -/
def slotAt (data : List (List (Slot SentenceData))) (di si : Nat) :
    Option (Slot SentenceData) :=
  match data[di]? with
  | none => none
  | some doc => doc[si]?

/-! ### Disambiguation stage (src/claimify.ts, claimifyDisambiguiation) -/

/-- Shape returned by the generation call of the Disambiguation stage
(DisambiguationOutputSchema, src/prompts/claimify.ts lines 1167-1177). -/
structure DisambiguationOutput where
  incompleteNamesAnalysis : String
  linguisticAmbiguityAnalysis : String
  canBeDisambiguated : Bool
  changesNeeded : String
  decontextualizedSentence : String

/-- Record stored per live slot by the Disambiguation stage: the
generation output spread together with originalSentence, query and
excerpt (src/claimify.ts lines 203-208 and 220-225). -/
structure DisambiguationStored where
  incompleteNamesAnalysis : String
  linguisticAmbiguityAnalysis : String
  canBeDisambiguated : Bool
  changesNeeded : String
  decontextualizedSentence : String
  originalSentence : String
  query : String
  excerpt : String

/-- The sentence fed to the Disambiguation prompt (src/claimify.ts lines
186-189): the original sentence exactly when the rewrite field equals the
lowercase string "remains unchanged", otherwise the rewrite field itself. -/
def sentenceForPrompt (sd : SentenceData) : String :=
  if sd.sentenceWithOnlyVerifiableInformation = "remains unchanged" then sd.sentence
  else sd.sentenceWithOnlyVerifiableInformation

/-- Success record of the Disambiguation stage (src/claimify.ts lines
203-208): llmOutput spread plus originalSentence, query, excerpt. -/
def mergeDisambStored (o : DisambiguationOutput) (sd : SentenceData) :
    DisambiguationStored :=
  { incompleteNamesAnalysis := o.incompleteNamesAnalysis
    linguisticAmbiguityAnalysis := o.linguisticAmbiguityAnalysis
    canBeDisambiguated := o.canBeDisambiguated
    changesNeeded := o.changesNeeded
    decontextualizedSentence := o.decontextualizedSentence
    originalSentence := sentenceForPrompt sd
    query := sd.query
    excerpt := sd.excerpt }

/-- Failure record of the Disambiguation stage (src/claimify.ts lines
213-225): every free-text field carries the error text and
canBeDisambiguated is false; the same carried fields are spread in. -/
def disambErrorStored (sd : SentenceData) (m : String) : DisambiguationStored :=
  { incompleteNamesAnalysis := errText m
    linguisticAmbiguityAnalysis := errText m
    canBeDisambiguated := false
    changesNeeded := errText m
    decontextualizedSentence := errText m
    originalSentence := sentenceForPrompt sd
    query := sd.query
    excerpt := sd.excerpt }

/-- Per-slot step of claimifyDisambiguiation (src/claimify.ts lines
172-227): an empty object is pushed through as an empty object; a live
record triggers one generation call whose success or failure record is
pushed. -/
def disambSlot (gen : String → String → String → GenResult DisambiguationOutput)
    (s : Slot SentenceData) : Slot DisambiguationStored :=
  match s with
  | Slot.pruned => Slot.pruned
  | Slot.populated sd =>
    match gen sd.query sd.excerpt (sentenceForPrompt sd) with
    | Except.ok o => Slot.populated (mergeDisambStored o sd)
    | Except.error m => Slot.populated (disambErrorStored sd m)

/-- Document loop of claimifyDisambiguiation: one output entry per input
entry, in order. -/
def disambDoc (gen : String → String → String → GenResult DisambiguationOutput)
    (slots : List (Slot SentenceData)) : List (Slot DisambiguationStored) :=
  slots.map (disambSlot gen)

/-! ### Decomposition stage (src/claimify.ts, claimifyDecomposition) -/

/-- Input record shape of the Decomposition stage (DisambiguationData,
src/prompts/claimify.ts lines 1144-1153); identical to the stored shape. -/
abbrev DisambiguationData := DisambiguationStored

/-- Shape returned by the generation call of the Decomposition stage
(DecompositionOutputSchema, src/prompts/claimify.ts lines 1178-1189). -/
structure DecompositionOutput where
  sentence : String
  referentialTermsAnalysis : String
  maxClarifiedSentence : String
  propositionRange : String
  specificVerifiablePropositions : List String
  propositionsWithContext : List String

/-- Record stored per surviving slot by the Decomposition stage:
the generation output spread plus query and excerpt (src/claimify.ts
lines 308-312 and 317-325). -/
structure DecompositionStored where
  sentence : String
  referentialTermsAnalysis : String
  maxClarifiedSentence : String
  propositionRange : String
  specificVerifiablePropositions : List String
  propositionsWithContext : List String
  query : String
  excerpt : String

/-- Success record of the Decomposition stage (src/claimify.ts lines
308-312). -/
def mergeDecompStored (o : DecompositionOutput) (q e : String) : DecompositionStored :=
  { sentence := o.sentence
    referentialTermsAnalysis := o.referentialTermsAnalysis
    maxClarifiedSentence := o.maxClarifiedSentence
    propositionRange := o.propositionRange
    specificVerifiablePropositions := o.specificVerifiablePropositions
    propositionsWithContext := o.propositionsWithContext
    query := q
    excerpt := e }

/-- Failure record of the Decomposition stage (src/claimify.ts lines
317-325): both proposition arrays empty, analysis fields carrying the
error text. -/
def decompErrorStored (d : DisambiguationData) (m : String) : DecompositionStored :=
  { sentence := d.decontextualizedSentence
    referentialTermsAnalysis := errText m
    maxClarifiedSentence := errText m
    propositionRange := errText m
    specificVerifiablePropositions := []
    propositionsWithContext := []
    query := d.query
    excerpt := d.excerpt }

/-- Per-slot step of claimifyDecomposition (src/claimify.ts lines
276-327): empty objects pass through; a record with canBeDisambiguated
false is replaced by an empty object without a generation call; otherwise
one generation call is made. -/
def decompSlot (gen : String → String → String → GenResult DecompositionOutput)
    (s : Slot DisambiguationData) : Slot DecompositionStored :=
  match s with
  | Slot.pruned => Slot.pruned
  | Slot.populated d =>
    if d.canBeDisambiguated then
      match gen d.query d.excerpt d.decontextualizedSentence with
      | Except.ok o => Slot.populated (mergeDecompStored o d.query d.excerpt)
      | Except.error m => Slot.populated (decompErrorStored d m)
    else Slot.pruned

/-- Document loop of claimifyDecomposition. -/
def decompDoc (gen : String → String → String → GenResult DecompositionOutput)
    (slots : List (Slot DisambiguationData)) : List (Slot DecompositionStored) :=
  slots.map (decompSlot gen)

/-! ### Entailment evaluation stage (src/claimify.ts, entailmentEvaluator) -/

/-- Input record shape of the evaluation stages (DecompositionData,
src/prompts/claimify.ts lines 1190-1199). -/
abbrev DecompositionData := DecompositionStored

/-- Shape returned by the generation call of the Entailment stage
(EntailmentOutputSchema, src/claimify.ts lines 348-362). -/
structure EntailmentOutput where
  sentenceS : String
  contextDescription : String
  claimC : String
  claimInterpretation : String
  elementsOfC : List String
  statementsAndActionsRuleApplies : Bool
  statementsAndActionsRuleReasoning : String
  elementAnalysis : String
  finalConclusion : String

/-- The entailmentEvaluation field of one claim evaluation is either the
structured output or, on failure, the raw error string (src/claimify.ts
lines 426-440). -/
inductive EntailmentEvalValue where
  | structured : EntailmentOutput → EntailmentEvalValue
  | errorString : String → EntailmentEvalValue

/-- What conclusion, if any, a stored entailmentEvaluation value carries. -/
def conclusionOfEval : EntailmentEvalValue → Option String
  | EntailmentEvalValue.structured o => some o.finalConclusion
  | EntailmentEvalValue.errorString _ => none

/-- One entry of claimEvaluations (src/claimify.ts lines 426-440). -/
structure ClaimEvaluation where
  claim : String
  entailmentEvaluation : EntailmentEvalValue

/-- Record stored per live slot by the Entailment stage: ONLY the claim
evaluations; the spread of the incoming decomposition data is commented
out in the source (src/claimify.ts lines 444-448). -/
structure EntailmentStored where
  claimEvaluations : List ClaimEvaluation

/-- Per-claim step of entailmentEvaluator (src/claimify.ts lines
412-442). -/
def entailClaim (gen : String → String → String → String → GenResult EntailmentOutput)
    (query excerpt sentence claim : String) : ClaimEvaluation :=
  match gen query excerpt sentence claim with
  | Except.ok r => { claim := claim, entailmentEvaluation := EntailmentEvalValue.structured r }
  | Except.error m =>
    { claim := claim, entailmentEvaluation := EntailmentEvalValue.errorString (errText m) }

/-- Per-slot step of entailmentEvaluator (src/claimify.ts lines 391-448):
empty objects pass through; otherwise one generation call per claim of
propositionsWithContext, and only claimEvaluations is stored. -/
def entailSlot (gen : String → String → String → String → GenResult EntailmentOutput)
    (s : Slot DecompositionData) : Slot EntailmentStored :=
  match s with
  | Slot.pruned => Slot.pruned
  | Slot.populated d =>
    Slot.populated
      { claimEvaluations :=
          d.propositionsWithContext.map (entailClaim gen d.query d.excerpt d.sentence) }

/-- Document loop of entailmentEvaluator. -/
def entailDoc (gen : String → String → String → String → GenResult EntailmentOutput)
    (slots : List (Slot DecompositionData)) : List (Slot EntailmentStored) :=
  slots.map (entailSlot gen)

/-! ### Element extraction stage (src/claimify.ts, elementExtractorV2) -/

/-- One element with its verifiability class (ElementSchema,
src/claimify.ts lines 15-24). -/
structure ElementRec where
  element : String
  verifiability : String

/-- Shape returned by the generation call of the element extraction stage
(ElementExtractionSchema, src/claimify.ts lines 29-45). -/
structure ElementExtractionOutput where
  originalSentence : String
  clarificationsNeeded : String
  restatedSentence : String
  statementsAndActionsRuleApplies : Bool
  statementsAndActionsRuleExplanation : String
  elements : List ElementRec

/-- The elementExtraction field is either the structured output or, on
failure, the raw error string (src/claimify.ts lines 48-54, 524-546). -/
inductive ElementExtractionValue where
  | structured : ElementExtractionOutput → ElementExtractionValue
  | errorString : String → ElementExtractionValue

/-- Record stored per live slot by elementExtractorV2 and consumed by the
coverage stage (ElementCoverageData, src/claimify.ts lines 48-54). -/
structure ElementCoverageData where
  query : String
  excerpt : String
  sentence : String
  elementExtraction : ElementExtractionValue
  claims : List String

/-- Per-slot step of elementExtractorV2 (src/claimify.ts lines 498-548):
empty objects pass through; otherwise one generation call, whose success
record or error record carries query, excerpt, sentence and claims. -/
def elementExtractSlot (gen : String → String → String → GenResult ElementExtractionOutput)
    (s : Slot DecompositionData) : Slot ElementCoverageData :=
  match s with
  | Slot.pruned => Slot.pruned
  | Slot.populated d =>
    match gen d.query d.excerpt d.sentence with
    | Except.ok r =>
      Slot.populated
        { query := d.query, excerpt := d.excerpt, sentence := d.sentence
          elementExtraction := ElementExtractionValue.structured r
          claims := d.propositionsWithContext }
    | Except.error m =>
      Slot.populated
        { query := d.query, excerpt := d.excerpt, sentence := d.sentence
          elementExtraction := ElementExtractionValue.errorString (errText m)
          claims := d.propositionsWithContext }

/-- Document loop of elementExtractorV2. -/
def elementExtractDoc (gen : String → String → String → GenResult ElementExtractionOutput)
    (slots : List (Slot DecompositionData)) : List (Slot ElementCoverageData) :=
  slots.map (elementExtractSlot gen)

/-! ### Element coverage stage (src/claimify.ts, elementCoverageEvaluatorV2) -/

/-- One coverage evaluation entry (ElementCoverageItemSchema,
src/claimify.ts lines 568-580). -/
structure CoverageItem where
  element : String
  coverageStatus : String
  reasoning : Option String

/-- The 2x2 confusion counts (src/claimify.ts lines 588-595). -/
structure CoverageMetrics where
  truePositives : Int
  falseNegatives : Int
  falsePositives : Int
  trueNegatives : Int

/-- Shape returned by the generation call of the coverage stage
(ElementCoverageEvaluationSchema, src/claimify.ts lines 583-596). -/
structure ElementCoverageEvaluationOutput where
  elementCoverageResults : List CoverageItem
  overallSummary : String
  metrics : CoverageMetrics

/-- The coverageEvaluation field is either the structured output or a
plain string (the SKIPPED marker or the error text). -/
inductive CoverageEvalValue where
  | structured : ElementCoverageEvaluationOutput → CoverageEvalValue
  | text : String → CoverageEvalValue

/-- Record stored per live slot by elementCoverageEvaluatorV2
(src/claimify.ts lines 644-694). -/
structure CoverageStored where
  query : String
  excerpt : String
  sentence : String
  elementExtraction : ElementExtractionValue
  claims : List String
  coverageEvaluation : CoverageEvalValue

/-- The numbered newline-joined text the coverage stage builds from a
string list (src/claimify.ts lines 658-661). -/
def numberedJoin (xs : List String) : String :=
  String.intercalate "\n" (xs.enum.map (fun p => Nat.repr (p.1 + 1) ++ ". " ++ p.2))

/-- Per-slot step of elementCoverageEvaluatorV2 (src/claimify.ts lines
628-695): empty objects pass through; a slot whose element extraction
failed (a string) is stored with a SKIPPED marker and no generation call;
otherwise one generation call is made on the formatted claims and
elements. -/
def coverageSlot (gen : String → String → String → String → GenResult ElementCoverageEvaluationOutput)
    (s : Slot ElementCoverageData) : Slot CoverageStored :=
  match s with
  | Slot.pruned => Slot.pruned
  | Slot.populated ed =>
    match ed.elementExtraction with
    | ElementExtractionValue.errorString m =>
      Slot.populated
        { query := ed.query, excerpt := ed.excerpt, sentence := ed.sentence
          elementExtraction := ElementExtractionValue.errorString m
          claims := ed.claims
          coverageEvaluation :=
            CoverageEvalValue.text ("SKIPPED: Element extraction failed - " ++ m) }
    | ElementExtractionValue.structured ex =>
      let claimsText := numberedJoin ed.claims
      let elementsText :=
        numberedJoin (ex.elements.map (fun el => el.element ++ " -> " ++ el.verifiability))
      match gen ed.query ed.excerpt claimsText elementsText with
      | Except.ok r =>
        Slot.populated
          { query := ed.query, excerpt := ed.excerpt, sentence := ed.sentence
            elementExtraction := ElementExtractionValue.structured ex
            claims := ed.claims
            coverageEvaluation := CoverageEvalValue.structured r }
      | Except.error m =>
        Slot.populated
          { query := ed.query, excerpt := ed.excerpt, sentence := ed.sentence
            elementExtraction := ElementExtractionValue.structured ex
            claims := ed.claims
            coverageEvaluation := CoverageEvalValue.text (errText m) }

/-- Document loop of elementCoverageEvaluatorV2. -/
def coverageDoc (gen : String → String → String → String → GenResult ElementCoverageEvaluationOutput)
    (slots : List (Slot ElementCoverageData)) : List (Slot CoverageStored) :=
  slots.map (coverageSlot gen)

/-! ### Call instrumentation

For the pruning-monotonicity claim we track which slot indices of a
document incur at least the stated number of generation calls.  Each
stage issues, for the slot at index i, a fixed number of calls computable
from the slot record alone (0 for pruned slots in every stage). -/

/-- Indices of the generation calls issued by a stage whose per-slot call
count is callsFor, starting at index k: the call list of the loop. -/
def slotCallIdxs {α : Type} (callsFor : α → Nat) : Nat → List (Slot α) → List Nat
  | _, [] => []
  | i, Slot.pruned :: rest => slotCallIdxs callsFor (i + 1) rest
  | i, Slot.populated a :: rest =>
    List.replicate (callsFor a) i ++ slotCallIdxs callsFor (i + 1) rest

/-- Disambiguation makes exactly one call per live slot. -/
def disambCallCount (_ : SentenceData) : Nat := 1

/-- Decomposition calls only when canBeDisambiguated holds. -/
def decompCallCount (d : DisambiguationData) : Nat :=
  if d.canBeDisambiguated then 1 else 0

/-- Entailment makes one call per claim of the slot. -/
def entailCallCount (d : DecompositionData) : Nat := d.propositionsWithContext.length

/-- Element extraction makes exactly one call per live slot. -/
def elementExtractCallCount (_ : DecompositionData) : Nat := 1

/-- Coverage calls only when the prior element extraction succeeded. -/
def coverageCallCount (ed : ElementCoverageData) : Nat :=
  match ed.elementExtraction with
  | ElementExtractionValue.structured _ => 1
  | ElementExtractionValue.errorString _ => 0

/-- Call indices of the Disambiguation document loop. -/
def disambDocCalls : Nat → List (Slot SentenceData) → List Nat :=
  slotCallIdxs disambCallCount

/-- Call indices of the Decomposition document loop. -/
def decompDocCalls : Nat → List (Slot DisambiguationData) → List Nat :=
  slotCallIdxs decompCallCount

/-- Call indices of the Entailment document loop. -/
def entailDocCalls : Nat → List (Slot DecompositionData) → List Nat :=
  slotCallIdxs entailCallCount

/-- Call indices of the element extraction document loop. -/
def elementExtractDocCalls : Nat → List (Slot DecompositionData) → List Nat :=
  slotCallIdxs elementExtractCallCount

/-- Call indices of the coverage document loop. -/
def coverageDocCalls : Nat → List (Slot ElementCoverageData) → List Nat :=
  slotCallIdxs coverageCallCount

/-! ### Concrete example inputs used by witnesses and counterexamples -/

/-- A generation capability that always fails at Selection. -/
def genFailSel : String → String → String → GenResult SelectionOutputRec :=
  fun _ _ _ => Except.error "boom"

/-- A canonical successful Selection output for a sentence. -/
def mkSelOk (s : String) : SelectionOutputRec :=
  { sentence := s
    finalSubmission := "Contains a specific and verifiable proposition"
    sentenceWithOnlyVerifiableInformation := s }

/-- A generation capability that always succeeds at Selection. -/
def genOkSel : String → String → String → GenResult SelectionOutputRec :=
  fun _ _ s => Except.ok (mkSelOk s)

/-- A Selection generation capability failing exactly on sentence "s1". -/
def genSel3 : String → String → String → GenResult SelectionOutputRec :=
  fun _ _ s => if s = "s1" then Except.error "boom" else Except.ok (mkSelOk s)

/-- A one-sentence well-formed Selection input document. -/
def selDocA : DataItemWithExcerpts :=
  { filename := "f", query := "q", tokenized_response := some ["s0"], excerpts := some ["e0"] }

/-- A Selection input document whose parallel arrays have mismatched lengths. -/
def selDocBad : DataItemWithExcerpts :=
  { filename := "bad", query := "q", tokenized_response := some ["s0", "s1"],
    excerpts := some ["e0"] }

/-- A live Selection record whose rewrite field is an ordinary rewrite. -/
def sdW : SentenceData :=
  { sentence := "orig"
    finalSubmission := "Contains a specific and verifiable proposition"
    sentenceWithOnlyVerifiableInformation := "rewrite"
    query := "q", excerpt := "e" }

/-- A live Selection record whose rewrite field is the lowercase sentinel. -/
def sdRemainsLower : SentenceData :=
  { sdW with sentenceWithOnlyVerifiableInformation := "remains unchanged" }

/-- A live Selection record whose rewrite field is the capitalised sentinel
the output schema instructs the generator to produce. -/
def sdRemainsSchema : SentenceData :=
  { sdW with sentenceWithOnlyVerifiableInformation := schemaUnchangedSentinel }

/-- A live Selection record carrying the no-verifiable-content sentinel. -/
def sdNone : SentenceData :=
  { sdW with sentenceWithOnlyVerifiableInformation := "None" }

/-- Input data for the prune-filter witness. -/
def dataW : List (List (Slot SentenceData)) :=
  [[Slot.populated sdNone, Slot.pruned, Slot.populated sdW]]

/-- A generation capability that always fails at Disambiguation. -/
def genFailD : String → String → String → GenResult DisambiguationOutput :=
  fun _ _ _ => Except.error "boom"

/-- A canonical Disambiguation output. -/
def disambOutW : DisambiguationOutput :=
  { incompleteNamesAnalysis := "ia", linguisticAmbiguityAnalysis := "la"
    canBeDisambiguated := true, changesNeeded := "cn", decontextualizedSentence := "ds" }

/-- A generation capability that always succeeds at Disambiguation. -/
def genOkD : String → String → String → GenResult DisambiguationOutput :=
  fun _ _ _ => Except.ok disambOutW

/-- A canonical Decomposition output. -/
def decompOutW : DecompositionOutput :=
  { sentence := "ds", referentialTermsAnalysis := "ra", maxClarifiedSentence := "mc"
    propositionRange := "1 - 1", specificVerifiablePropositions := ["p"]
    propositionsWithContext := ["pc"] }

/-- A generation capability that always succeeds at Decomposition. -/
def genOkDec : String → String → String → GenResult DecompositionOutput :=
  fun _ _ _ => Except.ok decompOutW

/-- A live Disambiguation record that can be disambiguated. -/
def dDisW : DisambiguationData :=
  { incompleteNamesAnalysis := "ia", linguisticAmbiguityAnalysis := "la"
    canBeDisambiguated := true, changesNeeded := "cn", decontextualizedSentence := "ds"
    originalSentence := "os", query := "q", excerpt := "e" }

/-- A decomposition record with one claim, first variant of carried fields. -/
def dEntA : DecompositionData :=
  { sentence := "sA", referentialTermsAnalysis := "ra", maxClarifiedSentence := "mc"
    propositionRange := "1 - 1", specificVerifiablePropositions := ["c"]
    propositionsWithContext := ["c"], query := "qA", excerpt := "eA" }

/-- A decomposition record with the same claim but different carried fields. -/
def dEntB : DecompositionData :=
  { dEntA with sentence := "sB", query := "qB", excerpt := "eB" }

/-- A decomposition record with a single claim named c1. -/
def dEntC : DecompositionData :=
  { dEntA with
    sentence := "s"
    query := "q"
    excerpt := "e"
    specificVerifiablePropositions := ["c1"]
    propositionsWithContext := ["c1"] }

/-- A generation capability that always fails at Entailment. -/
def genFailEnt : String → String → String → String → GenResult EntailmentOutput :=
  fun _ _ _ _ => Except.error "boom"

/-- A canonical Entailment output. -/
def entOutW : EntailmentOutput :=
  { sentenceS := "s", contextDescription := "cd", claimC := "c", claimInterpretation := "ci"
    elementsOfC := ["el"], statementsAndActionsRuleApplies := false
    statementsAndActionsRuleReasoning := "r", elementAnalysis := "ea"
    finalConclusion := "S entails all elements of C" }

/-- A generation capability that always succeeds at Entailment. -/
def genOkEnt : String → String → String → String → GenResult EntailmentOutput :=
  fun _ _ _ _ => Except.ok entOutW

/-- A generation capability that always fails at element extraction. -/
def genFailEl : String → String → String → GenResult ElementExtractionOutput :=
  fun _ _ _ => Except.error "boom"

/-- A generation capability that always fails at coverage evaluation. -/
def genFailCov : String → String → String → String → GenResult ElementCoverageEvaluationOutput :=
  fun _ _ _ _ => Except.error "boom"

/-! ### Helper lemmas -/

/-- Splitting a dropped prefix of a taken list at an interior index: the
window from s to e (exclusive) is the part before t, then the element at
t, then the part after t. -/
theorem window_split (l : List String) (s t e : Nat) (hst : s ≤ t) (hte : t < e)
    (hen : e ≤ l.length) :
    (l.take e).drop s = (l.take t).drop s ++ (l.getD t "" :: (l.take e).drop (t + 1)) := by
  have ht : t < l.length := lt_of_lt_of_le hte hen
  have htL : t < (l.take e).length := by rw [List.length_take]; omega
  have hTT : (l.take e).take t = l.take t := by
    rw [List.take_take, Nat.min_eq_left (Nat.le_of_lt hte)]
  have hlenTT : ((l.take e).take t).length = t := by
    rw [hTT, List.length_take]; omega
  have hget : (l.take e)[t] = l.getD t "" := by
    rw [List.getElem_take]
    exact (List.getD_eq_getElem l "" ht).symm
  conv_lhs => rw [← List.take_append_drop t (l.take e)]
  rw [List.drop_append_eq_append_drop, hlenTT, Nat.sub_eq_zero_of_le hst, List.drop_zero,
    hTT, List.drop_eq_getElem_cons htL, hget]

/-- The deterministic excerpt builder computes exactly the spec window. -/
theorem createExcerpt_eq_specWindow (l : List String) (t p f : Nat) (h : t < l.length) :
    createExcerpt l t p f = String.intercalate " " (specWindow l t p f) := by
  have hs : ((t : Int) - (p : Int)).toNat = t - p := by omega
  have hp : t - min p t = t - p := by omega
  have he : t + 1 + min f (l.length - 1 - t) = min l.length (t + f + 1) := by omega
  simp only [createExcerpt, specWindow, hs, hp, he]
  congr 1
  exact (window_split l (t - p) t (min l.length (t + f + 1)) (by omega) (by omega)
    (by omega)).symm

/-- The single-turn excerpt builder is definitionally the spec window. -/
theorem createExcerpt_singleturn_eq_specWindow (l : List String) (t p f : Nat) :
    createExcerpt_singleturn l t p f = String.intercalate " " (specWindow l t p f) := rfl

/-- Length preservation of the Selection sentence loop when every call
succeeds. -/
theorem selectionDoc_length_of_ok
    (gen : String → String → String → GenResult SelectionOutputRec) (q : String) :
    ∀ pairs : List (String × String),
      (∀ se ∈ pairs, ∃ o, gen q se.2 se.1 = Except.ok o) →
      (selectionDoc gen q pairs).length = pairs.length := by
  intro pairs
  induction pairs with
  | nil => intro _; rfl
  | cons se rest ih =>
    intro h
    obtain ⟨s, e⟩ := se
    obtain ⟨o, ho⟩ := h (s, e) (List.mem_cons_self _ _)
    have ho' : gen q e s = Except.ok o := ho
    simp only [selectionDoc, ho', List.length_cons]
    exact congrArg (fun n => n + 1) (ih (fun x hx => h x (List.mem_cons_of_mem _ hx)))

/-- Every call index recorded from start index k is at least k. -/
theorem slotCallIdxs_le {α : Type} (callsFor : α → Nat) :
    ∀ (slots : List (Slot α)) (k x : Nat),
      x ∈ slotCallIdxs callsFor k slots → k ≤ x := by
  intro slots
  induction slots with
  | nil => intro k x hx; simp [slotCallIdxs] at hx
  | cons a rest ih =>
    intro k x hx
    cases a with
    | pruned =>
      simp only [slotCallIdxs] at hx
      exact Nat.le_of_succ_le (ih (k + 1) x hx)
    | populated v =>
      simp only [slotCallIdxs, List.mem_append] at hx
      rcases hx with hx | hx
      · obtain ⟨-, hxk⟩ := List.mem_replicate.mp hx
        omega
      · exact Nat.le_of_succ_le (ih (k + 1) x hx)

/-- A pruned slot index never appears among the recorded call indices. -/
theorem slotCallIdxs_not_mem_of_pruned {α : Type} (callsFor : α → Nat) :
    ∀ (slots : List (Slot α)) (k i : Nat), slots[i]? = some Slot.pruned →
      (k + i) ∉ slotCallIdxs callsFor k slots := by
  intro slots
  induction slots with
  | nil => intro k i h; simp at h
  | cons a rest ih =>
    intro k i h hmem
    cases i with
    | zero =>
      simp only [List.getElem?_cons_zero, Option.some.injEq] at h
      subst h
      simp only [slotCallIdxs, Nat.add_zero] at hmem
      have := slotCallIdxs_le callsFor rest (k + 1) _ hmem
      omega
    | succ j =>
      simp only [List.getElem?_cons_succ] at h
      cases a with
      | pruned =>
        simp only [slotCallIdxs] at hmem
        have he : k + (j + 1) = (k + 1) + j := by omega
        rw [he] at hmem
        exact ih (k + 1) j h hmem
      | populated v =>
        simp only [slotCallIdxs, List.mem_append] at hmem
        rcases hmem with hmem | hmem
        · obtain ⟨-, hx⟩ := List.mem_replicate.mp hmem
          omega
        · have he : k + (j + 1) = (k + 1) + j := by omega
          rw [he] at hmem
          exact ih (k + 1) j h hmem

/-- Mapping a slot transformer that keeps pruned slots pruned preserves
the pruned marker at every index. -/
theorem map_slot_pruned {α β : Type} (fSlot : Slot α → Slot β)
    (hf : fSlot Slot.pruned = Slot.pruned) (slots : List (Slot α)) (i : Nat)
    (h : slots[i]? = some Slot.pruned) :
    (slots.map fSlot)[i]? = some Slot.pruned := by
  rw [List.getElem?_map, h, Option.map_some', hf]

/-! ### Claim theorems -/

/-- Claim C6 (confirmed): for every sentence list, every in-range target
index, and every p and f, the deterministic excerpt builder returns
sentences[max(0, t - p) .. min(len, t + f + 1)) joined by a single space,
and that window always contains the target sentence. -/
theorem c6_createExcerpt_window (l : List String) (t p f : Nat) (h : t < l.length) :
    createExcerpt l t p f = String.intercalate " " (specWindow l t p f)
    ∧ l.getD t "" ∈ specWindow l t p f := by
  constructor
  · exact createExcerpt_eq_specWindow l t p f h
  · have hs : ((t : Int) - (p : Int)).toNat = t - p := by omega
    have hw := window_split l (t - p) t (min l.length (t + f + 1)) (by omega) (by omega)
      (by omega)
    simp only [specWindow, hs]
    rw [hw]
    exact List.mem_append_right _ (List.mem_cons_self _ _)

/-- Witness for C6: the three window examples of the spec, and the target
membership obtained from the claim theorem at the first of them. -/
theorem c6_createExcerpt_window_witness :
    createExcerpt ["a", "b", "c", "d", "e"] 2 1 2 = "b c d e"
    ∧ createExcerpt ["a", "b", "c", "d", "e"] 0 3 0 = "a"
    ∧ createExcerpt ["a", "b", "c", "d", "e"] 4 0 3 = "e"
    ∧ (["a", "b", "c", "d", "e"] : List String).getD 2 "" ∈
        specWindow ["a", "b", "c", "d", "e"] 2 1 2 := by
  refine ⟨by decide, by decide, by decide,
    (c6_createExcerpt_window ["a", "b", "c", "d", "e"] 2 1 2 (by decide)).2⟩

/-- Claim C10 (confirmed): the slice-based excerpt builder of the
deterministic module and the max/min-based excerpt builder of the
single-turn module return the same string for every sentence list, every
in-range target index, and every p and f. -/
theorem c10_excerpt_builders_agree (l : List String) (t p f : Nat) (h : t < l.length) :
    createExcerpt l t p f = createExcerpt_singleturn l t p f := by
  rw [createExcerpt_eq_specWindow l t p f h, createExcerpt_singleturn_eq_specWindow]

/-- Witness for C10 at a concrete in-range input. -/
theorem c10_excerpt_builders_agree_witness :
    createExcerpt ["a", "b", "c", "d", "e"] 1 3 1 =
      createExcerpt_singleturn ["a", "b", "c", "d", "e"] 1 3 1 :=
  c10_excerpt_builders_agree ["a", "b", "c", "d", "e"] 1 3 1 (by decide)

/-- Claim C7 (confirmed): the deterministic prune filter between
Selection and Disambiguation converts exactly the live slots whose
rewrite field equals "None" into pruned slots, leaves every other slot
unchanged, and preserves the number and order of documents and of slots
per document. -/
theorem c7_prune_filter (data : List (List (Slot SentenceData))) :
    (filterVerifiableInformation data).length = data.length
    ∧ (∀ di : Nat,
        ((filterVerifiableInformation data)[di]?).map List.length =
          (data[di]?).map List.length)
    ∧ (∀ di si : Nat, ∀ sd : SentenceData,
        sd.sentenceWithOnlyVerifiableInformation = "None" →
        slotAt data di si = some (Slot.populated sd) →
        slotAt (filterVerifiableInformation data) di si = some Slot.pruned)
    ∧ (∀ di si : Nat, ∀ sd : SentenceData,
        sd.sentenceWithOnlyVerifiableInformation ≠ "None" →
        slotAt data di si = some (Slot.populated sd) →
        slotAt (filterVerifiableInformation data) di si = some (Slot.populated sd))
    ∧ (∀ di si : Nat,
        slotAt data di si = some Slot.pruned →
        slotAt (filterVerifiableInformation data) di si = some Slot.pruned) := by
  refine ⟨by simp [filterVerifiableInformation], ?_, ?_, ?_, ?_⟩
  · intro di
    simp only [filterVerifiableInformation, List.getElem?_map]
    cases data[di]? <;> simp
  · intro di si sd hNone h
    cases hdoc : data[di]? with
    | none => simp [slotAt, hdoc] at h
    | some doc =>
      simp only [slotAt, hdoc] at h
      have hdoc2 : (filterVerifiableInformation data)[di]? =
          some (doc.map filterVerifiableItem) := by
        simp [filterVerifiableInformation, List.getElem?_map, hdoc]
      simp only [slotAt, hdoc2, List.getElem?_map, h, Option.map_some']
      simp [filterVerifiableItem, hNone]
  · intro di si sd hNe h
    cases hdoc : data[di]? with
    | none => simp [slotAt, hdoc] at h
    | some doc =>
      simp only [slotAt, hdoc] at h
      have hdoc2 : (filterVerifiableInformation data)[di]? =
          some (doc.map filterVerifiableItem) := by
        simp [filterVerifiableInformation, List.getElem?_map, hdoc]
      simp only [slotAt, hdoc2, List.getElem?_map, h, Option.map_some']
      simp [filterVerifiableItem, hNe]
  · intro di si h
    cases hdoc : data[di]? with
    | none => simp [slotAt, hdoc] at h
    | some doc =>
      simp only [slotAt, hdoc] at h
      have hdoc2 : (filterVerifiableInformation data)[di]? =
          some (doc.map filterVerifiableItem) := by
        simp [filterVerifiableInformation, List.getElem?_map, hdoc]
      simp only [slotAt, hdoc2, List.getElem?_map, h, Option.map_some']
      simp [filterVerifiableItem]

/-- Witness for C7 on a document with a "None" slot, an already pruned
slot, and an ordinary live slot. -/
theorem c7_prune_filter_witness :
    slotAt (filterVerifiableInformation dataW) 0 0 = some Slot.pruned
    ∧ slotAt (filterVerifiableInformation dataW) 0 2 = some (Slot.populated sdW)
    ∧ slotAt (filterVerifiableInformation dataW) 0 1 = some Slot.pruned :=
  ⟨(c7_prune_filter dataW).2.2.1 0 0 sdNone rfl rfl,
   (c7_prune_filter dataW).2.2.2.1 0 2 sdW (by decide) rfl,
   (c7_prune_filter dataW).2.2.2.2 0 1 rfl⟩

/-- Claim C1 (amended): for Disambiguation, Decomposition, Entailment,
element extraction and coverage, each document yields exactly one output
slot per input slot, in order, whatever the generation results; at
Selection this holds only when every generation call of the document
succeeds, because a failed call appends nothing. -/
theorem c1_alignment_amended :
    (∀ (gen : String → String → String → GenResult DisambiguationOutput)
        (slots : List (Slot SentenceData)),
        (disambDoc gen slots).length = slots.length)
    ∧ (∀ (gen : String → String → String → GenResult DecompositionOutput)
        (slots : List (Slot DisambiguationData)),
        (decompDoc gen slots).length = slots.length)
    ∧ (∀ (gen : String → String → String → String → GenResult EntailmentOutput)
        (slots : List (Slot DecompositionData)),
        (entailDoc gen slots).length = slots.length)
    ∧ (∀ (gen : String → String → String → GenResult ElementExtractionOutput)
        (slots : List (Slot DecompositionData)),
        (elementExtractDoc gen slots).length = slots.length)
    ∧ (∀ (gen : String → String → String → String → GenResult ElementCoverageEvaluationOutput)
        (slots : List (Slot ElementCoverageData)),
        (coverageDoc gen slots).length = slots.length)
    ∧ (∀ (gen : String → String → String → GenResult SelectionOutputRec)
        (q : String) (pairs : List (String × String)),
        (∀ se ∈ pairs, ∃ o, gen q se.2 se.1 = Except.ok o) →
        (selectionDoc gen q pairs).length = pairs.length) := by
  refine ⟨?_, ?_, ?_, ?_, ?_, ?_⟩
  · intro gen slots; simp [disambDoc]
  · intro gen slots; simp [decompDoc]
  · intro gen slots; simp [entailDoc]
  · intro gen slots; simp [elementExtractDoc]
  · intro gen slots; simp [coverageDoc]
  · exact selectionDoc_length_of_ok

/-- Witness for C1 (amended) at concrete inputs, discharging the
all-calls-succeed hypothesis of the Selection part. -/
theorem c1_alignment_amended_witness :
    (disambDoc genFailD [Slot.pruned]).length = 1
    ∧ (selectionDoc genOkSel "q" [("s0", "e0")]).length = 1 := by
  constructor
  · exact c1_alignment_amended.1 genFailD [Slot.pruned]
  · exact c1_alignment_amended.2.2.2.2.2 genOkSel "q" [("s0", "e0")]
      (fun se _ => ⟨mkSelOk se.1, rfl⟩)

/-- Counterexample for C1 as stated: a one-sentence document whose single
generation call fails gets an empty output slot list at Selection, so the
output has 0 entries while the input sentence list has 1. -/
theorem c1_counterexample :
    claimifySelectionDocs genFailSel [selDocA] = [[]]
    ∧ ([] : List SelectionOutputRec).length ≠ (["s0"] : List String).length := by
  exact ⟨rfl, by decide⟩

/-- Claim C2 (code bug): evaluating the Selection stage on a 3-sentence
document whose middle generation call fails yields only the two success
records, not the claimed success / error-sentinel / success triple. -/
theorem c2_selection_error_isolation_eval :
    (selectionDoc genSel3 "q" [("s0", "e0"), ("s1", "e1"), ("s2", "e2")]).map
        SelectionOutputRec.sentence = ["s0", "s2"]
    ∧ (selectionDoc genSel3 "q" [("s0", "e0"), ("s1", "e1"), ("s2", "e2")]).length = 2 := by
  exact ⟨rfl, rfl⟩

/-- Claim C3 (amended): on a failed generation call, Disambiguation
stores a record with canBeDisambiguated false and error text in every
string field; Selection stores nothing at all although it builds the
fail-closed record; Entailment stores the raw error string in place of a
structured evaluation, hence no conclusion field. -/
theorem c3_fail_closed_amended :
    (∀ (gen : String → String → String → GenResult DisambiguationOutput)
        (sd : SentenceData) (m : String),
        gen sd.query sd.excerpt (sentenceForPrompt sd) = Except.error m →
        disambDoc gen [Slot.populated sd] = [Slot.populated (disambErrorStored sd m)]
        ∧ (disambErrorStored sd m).canBeDisambiguated = false)
    ∧ (∀ (gen : String → String → String → GenResult SelectionOutputRec)
        (q s e m : String),
        gen q e s = Except.error m → selectionDoc gen q [(s, e)] = [])
    ∧ (∀ (fn : String) (i : Nat) (s m : String),
        (selectionErrorOutput fn i s m).finalSubmission =
          "Does NOT contain a specific and verifiable proposition")
    ∧ (∀ (gen : String → String → String → String → GenResult EntailmentOutput)
        (d : DecompositionData) (c m : String),
        d.propositionsWithContext = [c] →
        gen d.query d.excerpt d.sentence c = Except.error m →
        entailDoc gen [Slot.populated d] =
          [Slot.populated { claimEvaluations :=
            [{ claim := c
               entailmentEvaluation := EntailmentEvalValue.errorString (errText m) }] }]) := by
  refine ⟨?_, ?_, ?_, ?_⟩
  · intro gen sd m h
    exact ⟨by simp [disambDoc, disambSlot, h], rfl⟩
  · intro gen q s e m h
    simp [selectionDoc, h]
  · intro fn i s m
    rfl
  · intro gen d c m hc h
    simp [entailDoc, entailSlot, hc, entailClaim, h]

/-- Witness for C3 (amended) at concrete failing generation calls. -/
theorem c3_fail_closed_amended_witness :
    disambDoc genFailD [Slot.populated sdW] = [Slot.populated (disambErrorStored sdW "boom")]
    ∧ selectionDoc genFailSel "q" [("s0", "e0")] = []
    ∧ entailDoc genFailEnt [Slot.populated dEntC] =
        [Slot.populated { claimEvaluations :=
          [{ claim := "c1"
             entailmentEvaluation := EntailmentEvalValue.errorString (errText "boom") }] }] :=
  ⟨(c3_fail_closed_amended.1 genFailD sdW "boom" rfl).1,
   c3_fail_closed_amended.2.1 genFailSel "q" "s0" "e0" "boom" rfl,
   c3_fail_closed_amended.2.2.2 genFailEnt dEntC "c1" "boom" rfl rfl⟩

/-- Counterexample for C3 as stated: on a failed Entailment call the
stored evaluation is the raw error string, which carries no conclusion,
in particular not the fail-closed conclusion the claim requires. -/
theorem c3_counterexample :
    entailDoc genFailEnt [Slot.populated dEntC] =
      [Slot.populated { claimEvaluations :=
        [{ claim := "c1"
           entailmentEvaluation := EntailmentEvalValue.errorString (errText "boom") }] }]
    ∧ conclusionOfEval (EntailmentEvalValue.errorString (errText "boom")) ≠
        some "S does not entail all elements of C" := by
  constructor
  · rfl
  · simp [conclusionOfEval]

/-- Claim C4 (amended): at Selection a non-array input returns early
without writing output and without surfacing an error; an array input
always completes; a document with missing or mismatched parallel arrays
is skipped while the run continues over the remaining documents. -/
theorem c4_structural_amended :
    (∀ gen : String → String → String → GenResult SelectionOutputRec,
        claimifySelection gen RawInput.notArray = StageResult.earlyReturn)
    ∧ (∀ (gen : String → String → String → GenResult SelectionOutputRec)
        (docs : List DataItemWithExcerpts),
        claimifySelection gen (RawInput.array docs) =
          StageResult.wroteOutput (claimifySelectionDocs gen docs))
    ∧ (∀ (gen : String → String → String → GenResult SelectionOutputRec)
        (item : DataItemWithExcerpts) (rest : List DataItemWithExcerpts),
        (item.tokenized_response = none ∨ item.excerpts = none ∨
          (∀ tok exc, item.tokenized_response = some tok → item.excerpts = some exc →
            tok.length ≠ exc.length)) →
        claimifySelectionDocs gen (item :: rest) = claimifySelectionDocs gen rest) := by
  refine ⟨fun _ => rfl, fun _ _ => rfl, ?_⟩
  intro gen item rest h
  obtain ⟨fn, q, otok, oexc⟩ := item
  cases otok with
  | none => rfl
  | some tok =>
    cases oexc with
    | none => rfl
    | some exc =>
      rcases h with h | h | h
      · exact absurd h (by simp)
      · exact absurd h (by simp)
      · have hne : tok.length ≠ exc.length := h tok exc rfl rfl
        simp [claimifySelectionDocs, hne]

/-- Witness for C4 (amended): a mismatched document is skipped. -/
theorem c4_structural_amended_witness :
    claimifySelection genOkSel RawInput.notArray = StageResult.earlyReturn
    ∧ claimifySelectionDocs genOkSel [selDocBad] = claimifySelectionDocs genOkSel [] := by
  refine ⟨c4_structural_amended.1 genOkSel,
    c4_structural_amended.2.2 genOkSel selDocBad [] (Or.inr (Or.inr ?_))⟩
  intro tok exc htok hexc
  simp only [selDocBad] at htok hexc
  obtain rfl : tok = ["s0", "s1"] := (Option.some.inj htok).symm
  obtain rfl : exc = ["e0"] := (Option.some.inj hexc).symm
  decide

/-- Counterexample for C4 as stated: a run over a well-formed document
and a document with mismatched parallel arrays completes and writes
output for the well-formed document only, instead of aborting. -/
theorem c4_counterexample :
    claimifySelection genOkSel (RawInput.array [selDocA, selDocBad]) =
      StageResult.wroteOutput [[mkSelOk "s0"]]
    ∧ ([selDocA, selDocBad] : List DataItemWithExcerpts).length = 2
    ∧ ([[mkSelOk "s0"]] : List (List SelectionOutputRec)).length = 1 := by
  exact ⟨rfl, rfl, rfl⟩

/-- Claim C5 (amended): on success, Disambiguation stores the validated
output merged with query, excerpt and the prompt sentence; Decomposition
stores the validated output merged with query and excerpt only, its
sentence field coming from the validated output; Entailment stores only
the claim evaluations, carrying over no fields at all. -/
theorem c5_merge_amended :
    (∀ (gen : String → String → String → GenResult DisambiguationOutput)
        (sd : SentenceData) (o : DisambiguationOutput),
        gen sd.query sd.excerpt (sentenceForPrompt sd) = Except.ok o →
        disambDoc gen [Slot.populated sd] = [Slot.populated (mergeDisambStored o sd)]
        ∧ (mergeDisambStored o sd).query = sd.query
        ∧ (mergeDisambStored o sd).excerpt = sd.excerpt
        ∧ (mergeDisambStored o sd).originalSentence = sentenceForPrompt sd
        ∧ (mergeDisambStored o sd).canBeDisambiguated = o.canBeDisambiguated)
    ∧ (∀ (gen : String → String → String → GenResult DecompositionOutput)
        (d : DisambiguationData) (o : DecompositionOutput),
        d.canBeDisambiguated = true →
        gen d.query d.excerpt d.decontextualizedSentence = Except.ok o →
        decompDoc gen [Slot.populated d] =
          [Slot.populated (mergeDecompStored o d.query d.excerpt)]
        ∧ (mergeDecompStored o d.query d.excerpt).query = d.query
        ∧ (mergeDecompStored o d.query d.excerpt).excerpt = d.excerpt
        ∧ (mergeDecompStored o d.query d.excerpt).sentence = o.sentence)
    ∧ (∀ (gen : String → String → String → String → GenResult EntailmentOutput)
        (d : DecompositionData),
        entailDoc gen [Slot.populated d] =
          [Slot.populated { claimEvaluations :=
            d.propositionsWithContext.map (entailClaim gen d.query d.excerpt d.sentence) }]) := by
  refine ⟨?_, ?_, ?_⟩
  · intro gen sd o h
    exact ⟨by simp [disambDoc, disambSlot, h], rfl, rfl, rfl, rfl⟩
  · intro gen d o hcd h
    exact ⟨by simp [decompDoc, decompSlot, hcd, h], rfl, rfl, rfl⟩
  · intro gen d
    rfl

/-- Witness for C5 (amended) at concrete successful generation calls. -/
theorem c5_merge_amended_witness :
    disambDoc genOkD [Slot.populated sdW] = [Slot.populated (mergeDisambStored disambOutW sdW)]
    ∧ decompDoc genOkDec [Slot.populated dDisW] =
        [Slot.populated (mergeDecompStored decompOutW dDisW.query dDisW.excerpt)]
    ∧ entailDoc genOkEnt [Slot.populated dEntC] =
        [Slot.populated
          ⟨dEntC.propositionsWithContext.map
            (entailClaim genOkEnt dEntC.query dEntC.excerpt dEntC.sentence)⟩] :=
  ⟨(c5_merge_amended.1 genOkD sdW disambOutW rfl).1,
   (c5_merge_amended.2.1 genOkDec dDisW decompOutW rfl rfl).1,
   c5_merge_amended.2.2 genOkEnt dEntC⟩

/-- Counterexample for C5 as stated: two live Entailment slots differing
in query, excerpt and sentence produce identical stored records, so the
stored record cannot include those carried-over fields. -/
theorem c5_counterexample :
    entailDoc genOkEnt [Slot.populated dEntA] = entailDoc genOkEnt [Slot.populated dEntB]
    ∧ dEntA.query ≠ dEntB.query
    ∧ dEntA.excerpt ≠ dEntB.excerpt
    ∧ dEntA.sentence ≠ dEntB.sentence := by
  refine ⟨rfl, ?_, ?_, ?_⟩ <;> decide

/-- Claim C8 (confirmed): a slot that is pruned on entry to
Disambiguation, Decomposition, Entailment, element extraction or coverage
stays pruned at the same index in the stage output, and its index never
incurs a generation call. -/
theorem c8_pruning_monotonic :
    (∀ (gen : String → String → String → GenResult DisambiguationOutput)
        (slots : List (Slot SentenceData)) (i : Nat),
        slots[i]? = some Slot.pruned →
        (disambDoc gen slots)[i]? = some Slot.pruned ∧ i ∉ disambDocCalls 0 slots)
    ∧ (∀ (gen : String → String → String → GenResult DecompositionOutput)
        (slots : List (Slot DisambiguationData)) (i : Nat),
        slots[i]? = some Slot.pruned →
        (decompDoc gen slots)[i]? = some Slot.pruned ∧ i ∉ decompDocCalls 0 slots)
    ∧ (∀ (gen : String → String → String → String → GenResult EntailmentOutput)
        (slots : List (Slot DecompositionData)) (i : Nat),
        slots[i]? = some Slot.pruned →
        (entailDoc gen slots)[i]? = some Slot.pruned ∧ i ∉ entailDocCalls 0 slots)
    ∧ (∀ (gen : String → String → String → GenResult ElementExtractionOutput)
        (slots : List (Slot DecompositionData)) (i : Nat),
        slots[i]? = some Slot.pruned →
        (elementExtractDoc gen slots)[i]? = some Slot.pruned
        ∧ i ∉ elementExtractDocCalls 0 slots)
    ∧ (∀ (gen : String → String → String → String → GenResult ElementCoverageEvaluationOutput)
        (slots : List (Slot ElementCoverageData)) (i : Nat),
        slots[i]? = some Slot.pruned →
        (coverageDoc gen slots)[i]? = some Slot.pruned ∧ i ∉ coverageDocCalls 0 slots) := by
  refine ⟨?_, ?_, ?_, ?_, ?_⟩
  · intro gen slots i h
    refine ⟨map_slot_pruned (disambSlot gen) rfl slots i h, ?_⟩
    have := slotCallIdxs_not_mem_of_pruned disambCallCount slots 0 i h
    simpa [disambDocCalls] using this
  · intro gen slots i h
    refine ⟨map_slot_pruned (decompSlot gen) rfl slots i h, ?_⟩
    have := slotCallIdxs_not_mem_of_pruned decompCallCount slots 0 i h
    simpa [decompDocCalls] using this
  · intro gen slots i h
    refine ⟨map_slot_pruned (entailSlot gen) rfl slots i h, ?_⟩
    have := slotCallIdxs_not_mem_of_pruned entailCallCount slots 0 i h
    simpa [entailDocCalls] using this
  · intro gen slots i h
    refine ⟨map_slot_pruned (elementExtractSlot gen) rfl slots i h, ?_⟩
    have := slotCallIdxs_not_mem_of_pruned elementExtractCallCount slots 0 i h
    simpa [elementExtractDocCalls] using this
  · intro gen slots i h
    refine ⟨map_slot_pruned (coverageSlot gen) rfl slots i h, ?_⟩
    have := slotCallIdxs_not_mem_of_pruned coverageCallCount slots 0 i h
    simpa [coverageDocCalls] using this

/-- Witness for C8 on one-slot pruned documents at every later stage. -/
theorem c8_pruning_monotonic_witness :
    ((disambDoc genFailD [Slot.pruned])[0]? = some Slot.pruned
      ∧ 0 ∉ disambDocCalls 0 [Slot.pruned])
    ∧ ((decompDoc genOkDec [Slot.pruned])[0]? = some Slot.pruned
      ∧ 0 ∉ decompDocCalls 0 [Slot.pruned])
    ∧ ((entailDoc genOkEnt [Slot.pruned])[0]? = some Slot.pruned
      ∧ 0 ∉ entailDocCalls 0 [Slot.pruned])
    ∧ ((elementExtractDoc genFailEl [Slot.pruned])[0]? = some Slot.pruned
      ∧ 0 ∉ elementExtractDocCalls 0 [Slot.pruned])
    ∧ ((coverageDoc genFailCov [Slot.pruned])[0]? = some Slot.pruned
      ∧ 0 ∉ coverageDocCalls 0 [Slot.pruned]) :=
  ⟨c8_pruning_monotonic.1 genFailD [Slot.pruned] 0 rfl,
   c8_pruning_monotonic.2.1 genOkDec [Slot.pruned] 0 rfl,
   c8_pruning_monotonic.2.2.1 genOkEnt [Slot.pruned] 0 rfl,
   c8_pruning_monotonic.2.2.2.1 genFailEl [Slot.pruned] 0 rfl,
   c8_pruning_monotonic.2.2.2.2 genFailCov [Slot.pruned] 0 rfl⟩

/-- Claim C9 (confirmed): Disambiguation substitutes the original
sentence exactly when the rewrite field equals the lowercase string
"remains unchanged"; any other value, including the capitalised sentinel
the Selection output schema instructs the generator to produce, is used
verbatim as the sentence to disambiguate. -/
theorem c9_unchanged_sentinel_case :
    (∀ sd : SentenceData, sd.sentenceWithOnlyVerifiableInformation = "remains unchanged" →
        sentenceForPrompt sd = sd.sentence)
    ∧ (∀ sd : SentenceData, sd.sentenceWithOnlyVerifiableInformation ≠ "remains unchanged" →
        sentenceForPrompt sd = sd.sentenceWithOnlyVerifiableInformation)
    ∧ schemaUnchangedSentinel ≠ "remains unchanged"
    ∧ (∀ sd : SentenceData, sd.sentenceWithOnlyVerifiableInformation = schemaUnchangedSentinel →
        sentenceForPrompt sd = schemaUnchangedSentinel) := by
  refine ⟨?_, ?_, by decide, ?_⟩
  · intro sd h; simp [sentenceForPrompt, h]
  · intro sd h; simp [sentenceForPrompt, h]
  · intro sd h
    simp only [sentenceForPrompt, h]
    rw [if_neg (by decide)]

/-- Witness for C9: the lowercase sentinel is substituted, the
capitalised schema sentinel and an ordinary rewrite are used verbatim. -/
theorem c9_unchanged_sentinel_case_witness :
    sentenceForPrompt sdRemainsLower = sdRemainsLower.sentence
    ∧ sentenceForPrompt sdRemainsSchema = schemaUnchangedSentinel
    ∧ sentenceForPrompt sdW = sdW.sentenceWithOnlyVerifiableInformation :=
  ⟨c9_unchanged_sentinel_case.1 sdRemainsLower rfl,
   c9_unchanged_sentinel_case.2.2.2 sdRemainsSchema rfl,
   c9_unchanged_sentinel_case.2.1 sdW (by decide)⟩
